import Mathlib

/-!
Verification development for the Madlan property-search MCP server
(`src/mcp_server.py` and `install.py`).

The Python code is shallowly embedded in Lean:
* pandas rows become a `Record` structure; float fields are idealised as `ℚ`;
* the one transcendental ingredient of the match score, `np.exp`, is embedded
  as `Real.exp`, so score values live in `ℝ` (exact real exponentiation has no
  computable counterpart, which is why the score-carrying definitions are
  `noncomputable`; everything else is executable);
* Python `int()` truncation is `truncQ`, Python `round(x, 1)` (round-half-to-even
  at one decimal) is `round1` built on the half-even integer rounding `rhe`;
* `pandas.DataFrame.sort_values('madlan_match_score', ascending=False)` uses the
  default `kind='quicksort'` (numpy introsort), whose tie order is documented as
  not stable and which pandas applies by reversing the ascending permutation;
  the embedding has to pick one determinate order and uses a stable descending
  merge sort.  Facts proved below do not depend on the tie order except where
  explicitly discussed.
* The JSON-RPC dispatcher `handle_request` and the stdin line loop `main` are
  embedded as `handleRequest`/`mainLoop` over an explicit `ServerState`; an
  input line is either empty, malformed (a `json.JSONDecodeError`), or a parsed
  request.  The textual report rendering (`format_desktop_optimized`) is not
  modelled; the `tools/call` payload carries the structured search result.
-/

namespace Madlan

/-! ### Numeric helpers: Python `int()` and `round(x, 1)` -/

/-- Python `int()` applied to a rational value: truncation toward zero. -/
def truncQ (q : ℚ) : ℤ :=
  if q < 0 then -⌊-q⌋ else ⌊q⌋

/-- Round-half-to-even to the nearest integer, Python's `round` tie rule. -/
def rhe {K : Type*} [LinearOrderedField K] [FloorRing K] (x : K) : ℤ :=
  if Int.fract x < 1 / 2 then ⌊x⌋
  else if 1 / 2 < Int.fract x then ⌊x⌋ + 1
  else if ⌊x⌋ % 2 = 0 then ⌊x⌋ else ⌊x⌋ + 1

/-- Python `round(x, 1)`: round to one decimal place, ties to even. -/
def round1 {K : Type*} [LinearOrderedField K] [FloorRing K] (x : K) : K :=
  ((rhe (10 * x) : ℤ) : K) / 10

/-! ### Strings: lower-casing and substring membership (Python `kw in text`) -/

/-- `str.lower()` : lower-case every character. -/
def toLowerStr (s : String) : String := ⟨s.data.map Char.toLower⟩

/-- Is the first character list a prefix of the second? -/
def listPrefixEq : List Char → List Char → Bool
  | [], _ => true
  | _ :: _, [] => false
  | a :: as, b :: bs => (a == b) && listPrefixEq as bs

/-- Does the second character list contain the first as a contiguous run? -/
def listHasSub (p : List Char) : List Char → Bool
  | [] => p.isEmpty
  | c :: rest => listPrefixEq p (c :: rest) || listHasSub p rest

/-- Python `pat in text` on strings: contiguous substring containment. -/
def strContainsSub (text pat : String) : Bool := listHasSub pat.data text.data

/-! ### Data model

One row of `self.properties_df` after `load_data` (columns of
`listings_enriched.csv` plus the derived nearest-facility columns).
`publishDaysOld` is the age of `publish_date` in days at request time
(`(datetime.now() - pub_date).days`); `none` models an unparseable date. -/

structure Record where
  publishDaysOld : Option ℤ
  sellerType : String
  rooms : ℚ
  price : ℚ
  floors : ℚ
  area : ℚ
  city : String
  neighbourhood : String
  street : String
  propertyType : String
  transactionType : String
  hasBalconies : Bool
  hasElevator : Bool
  hasParking : Bool
  schoolDistKm : ℚ
  clinicDistKm : ℚ
deriving DecidableEq

/-- The keyword arguments read by `search_properties` (`kwargs`).  A field of
type `Option` is `none` when the key is absent.  Keys accepted by the tool
schema but never read by `search_properties` (`property_type`, `neighborhoods`,
`sort_by`) are omitted. -/
structure SearchParams where
  queryText : String := ""
  maxPrice : Option ℚ := none
  minPrice : Option ℚ := none
  rooms : Option ℚ := none
  transactionType : Option String := none
  nearSchools : Bool := false
  nearMedical : Bool := false
  hasParking : Bool := false
  hasElevator : Bool := false
  hasBalcony : Bool := false
  limit : Option ℕ := none
deriving DecidableEq

/-- Python truthiness of `kwargs.get(key)` for a numeric parameter:
absent and `0` are falsy. -/
def qTruthy : Option ℚ → Bool
  | none => false
  | some v => v != 0

/-- Python truthiness of `kwargs.get(key)` for a string parameter:
absent and `""` are falsy. -/
def strTruthy : Option String → Bool
  | none => false
  | some s => s != ""

/-! ### Intent classifier (`detect_query_intent_and_amenities`) -/

def listingIndicators : List String :=
  ["show me", "find me", "list", "properties", "apartments", "flats",
   "top", "best", "recommendations", "options", "listings",
   "search for", "looking for", "want to see"]

def dataIndicators : List String :=
  ["analyze", "analysis", "statistics", "stats", "average", "compare",
   "market data", "trends", "price analysis", "how many", "count",
   "overview", "summary", "what is", "tell me about"]

def schoolsKeywords : List String :=
  ["school", "schools", "education", "elementary", "high school",
   "kindergarten", "בית ספר", "תיכון", "חינוך"]

def medicalKeywords : List String :=
  ["medical", "clinic", "hospital", "doctor", "health", "healthcare",
   "maccabi", "clalit", "leumit", "מכבי", "כללית", "לאומית", "רופא", "קליניקה"]

def transportKeywords : List String :=
  ["transport", "transportation", "bus", "train", "metro", "carmelit",
   "station", "public transport", "תחבורה", "אוטובוס", "רכבת"]

def forSaleKeywords : List String :=
  ["for sale", "buy", "purchase", "buying", "sale", "למכירה", "קנייה"]

def toLetKeywords : List String :=
  ["to let", "rent", "rental", "renting", "lease", "להשכרה", "השכרה", "שכירות"]

/-- `any(keyword in query_text for keyword in keywords)`. -/
def anyKeywordIn (q : String) (kws : List String) : Bool :=
  kws.any (fun k => strContainsSub q k)

structure IntentData where
  formatMode : String
  mentionedAmenities : List String
  isListingQuery : Bool
  isDataQuery : Bool
  detectedTransaction : Option String
deriving DecidableEq

/-- `detect_query_intent_and_amenities(search_params)`.  The transaction
keyword dictionary is iterated in insertion order (`for_sale`, then `to_let`)
and the first match wins. -/
def detectQueryIntentAndAmenities (p : SearchParams) : IntentData :=
  let q := toLowerStr p.queryText
  let isListing := anyKeywordIn q listingIndicators
  let isData := anyKeywordIn q dataIndicators
  let base :=
    (if anyKeywordIn q schoolsKeywords then ["schools"] else []) ++
    (if anyKeywordIn q medicalKeywords then ["medical"] else []) ++
    (if anyKeywordIn q transportKeywords then ["transport"] else [])
  let detected : Option String :=
    if anyKeywordIn q forSaleKeywords then some "For Sale"
    else if anyKeywordIn q toLetKeywords then some "To Let"
    else none
  let m1 := if p.nearSchools && !(base.contains "schools") then base ++ ["schools"] else base
  let m2 := if p.nearMedical && !(m1.contains "medical") then m1 ++ ["medical"] else m1
  { formatMode := if isData && !isListing && m2.isEmpty then "data" else "listings"
    mentionedAmenities := m2
    isListingQuery := isListing
    isDataQuery := isData
    detectedTransaction := detected }

/-! ### Match score (`calculate_madlan_match_score`) -/

/-- Price competitiveness, up to 15 points:
`15 * (1 - (all_properties_df['property_price'] < price).mean())`,
awarded only when `len(all_properties_df) > 1`. -/
def priceScoreOf (r : Record) (pool : List Record) : ℚ :=
  if 1 < pool.length then
    15 * (1 - (List.countP (fun c => decide (c.price < r.price)) pool : ℚ) / (pool.length : ℚ))
  else 0

/-- Size value, up to 10 points:
`10 * (all_properties_df['property_builded_area'] < area).mean()`,
awarded only when `area > 0`. -/
def areaScoreOf (r : Record) (pool : List Record) : ℚ :=
  if 0 < r.area then
    10 * ((List.countP (fun c => decide (c.area < r.area)) pool : ℚ) / (pool.length : ℚ))
  else 0

/-- Feature bonus: +5 for each of parking, elevator, balconies. -/
def featureScoreOf (r : Record) : ℚ :=
  (if r.hasParking then 5 else 0) +
  (if r.hasElevator then 5 else 0) +
  (if r.hasBalconies then 5 else 0)

/-- Recency bonus: `max(0, 10 * (1 - days_old / 365))`, and a flat 5 when the
publish date cannot be parsed (the bare `except` branch). -/
def recencyScoreOf (r : Record) : ℚ :=
  match r.publishDaysOld with
  | some d => max 0 (10 * (1 - (d : ℚ) / 365))
  | none => 5

/-- The `metadata_score` accumulator of `calculate_madlan_match_score`. -/
def metadataScore (r : Record) (pool : List Record) : ℚ :=
  priceScoreOf r pool + areaScoreOf r pool + featureScoreOf r + recencyScoreOf r

/-- The `context_score` part: when `near_schools` was requested and the record
has a known school distance, `min(50, 50 * np.exp(-school_dist * 2))`;
with the 999 sentinel distance nothing is added; without a `near_schools`
request a flat 25-point baseline. -/
noncomputable def contextScore (r : Record) (p : SearchParams) : ℝ :=
  if p.nearSchools then
    (if r.schoolDistKm < 999 then
      min 50 (50 * Real.exp (-(r.schoolDistKm : ℝ) * 2))
    else 0)
  else 25

/-- `calculate_madlan_match_score(property_row, search_params, all_properties_df)`:
`min(100, round(metadata_score + context_score, 1))`. -/
noncomputable def calculateMadlanMatchScore
    (r : Record) (p : SearchParams) (pool : List Record) : ℝ :=
  min 100 (round1 (((metadataScore r pool : ℚ) : ℝ) + contextScore r p))

/-! ### Filter pipeline of `search_properties` -/

/-- Lines 284–296 of `mcp_server.py`: the explicit `transaction_type`
parameter filter, then the classifier-inferred transaction filter, which is
guarded by `detected_transaction and not kwargs.get('transaction_type')`.
(The `'transaction_type' in df.columns` guard always holds: both the enriched
CSV and the fallback frame carry the column.)  Returns the narrowed frame and
the accumulated filter descriptions. -/
def applyTransactionFilters (p : SearchParams) (detected : Option String)
    (df : List Record) (filters : List String) : List Record × List String :=
  let step1 :=
    if strTruthy p.transactionType then
      (df.filter (fun r => r.transactionType == p.transactionType.getD ""),
       filters ++ ["Transaction type: " ++ p.transactionType.getD ""])
    else (df, filters)
  if strTruthy detected && !(strTruthy p.transactionType) then
    (step1.1.filter (fun r => r.transactionType == detected.getD ""),
     step1.2 ++ ["Auto-detected: " ++ detected.getD "" ++ " properties only"])
  else step1

/-- Lines 284–329: the whole filter pipeline, in source order.  Numeric
formatting of the description strings (`{:,}`) is simplified to `toString`. -/
def applyFilters (p : SearchParams) (detected : Option String)
    (df : List Record) : List Record × List String :=
  let s0 := applyTransactionFilters p detected df []
  let s1 := if qTruthy p.maxPrice then
      (s0.1.filter (fun r => decide (r.price ≤ p.maxPrice.getD 0)),
       s0.2 ++ ["Max price: " ++ toString (p.maxPrice.getD 0) ++ " NIS"])
    else s0
  let s2 := if qTruthy p.minPrice then
      (s1.1.filter (fun r => decide (p.minPrice.getD 0 ≤ r.price)),
       s1.2 ++ ["Min price: " ++ toString (p.minPrice.getD 0) ++ " NIS"])
    else s1
  let s3 := if qTruthy p.rooms then
      (s2.1.filter (fun r => decide (p.rooms.getD 0 ≤ r.rooms)),
       s2.2 ++ ["Min rooms: " ++ toString (p.rooms.getD 0)])
    else s2
  let s4 := if p.nearSchools then
      (s3.1.filter (fun r => decide (r.schoolDistKm ≤ (1.5 : ℚ))),
       s3.2 ++ ["Near schools (<=1.5km)"])
    else s3
  let s5 := if p.nearMedical then
      (s4.1.filter (fun r => decide (r.clinicDistKm ≤ (2 : ℚ))),
       s4.2 ++ ["Near medical (<=2km)"])
    else s4
  let s6 := if p.hasParking then
      (s5.1.filter (fun r => r.hasParking), s5.2 ++ ["Must have parking"])
    else s5
  let s7 := if p.hasElevator then
      (s6.1.filter (fun r => r.hasElevator), s6.2 ++ ["Must have elevator"])
    else s6
  if p.hasBalcony then
    (s7.1.filter (fun r => r.hasBalconies), s7.2 ++ ["Must have balcony"])
  else s7

/-! ### Search result assembly -/

structure MarketStats where
  avgPrice : ℤ
  minPrice : ℤ
  maxPrice : ℤ
  avgArea : ℚ
deriving DecidableEq

structure SearchResult where
  properties : List (Record × ℝ)
  filters : List String
  totalFound : ℕ
  marketStats : MarketStats
  intentData : IntentData

def qSum (l : List ℚ) : ℚ := l.foldr (· + ·) 0

def qListMin : List ℚ → ℚ
  | [] => 0
  | x :: xs => xs.foldl min x

def qListMax : List ℚ → ℚ
  | [] => 0
  | x :: xs => xs.foldl max x

/-- The `market_stats` block of the result dictionary, computed from the
page that survives sorting and `df.head(limit)` (each entry guarded by
`if len(df) > 0 else 0`). -/
def marketStatsOf (page : List (Record × ℝ)) : MarketStats :=
  let prices := page.map (fun x => x.1.price)
  let areas := page.map (fun x => x.1.area)
  { avgPrice := if 0 < page.length then truncQ (qSum prices / (prices.length : ℚ)) else 0
    minPrice := if 0 < page.length then truncQ (qListMin prices) else 0
    maxPrice := if 0 < page.length then truncQ (qListMax prices) else 0
    avgArea := if 0 < page.length then round1 (qSum areas / (areas.length : ℚ)) else 0 }

/-- Descending-by-score comparator for the sort of the scored frame. -/
noncomputable def scoreDescBool (a b : Record × ℝ) : Bool := decide (b.2 ≤ a.2)

/-- `search_properties(**kwargs)` on the process dataset `properties`
(= `self.properties_df`; the boolean-column re-coercion of lines 276–279 is
the identity on the already-boolean model).  Note that the scoring pool passed
to `calculate_madlan_match_score` is `self.properties_df`, the full dataset,
not the filtered frame.  The sort models
`df.sort_values('madlan_match_score', ascending=False)` as a stable descending
merge sort; pandas' default quicksort leaves the tie order unspecified. -/
noncomputable def searchProperties (p : SearchParams) (properties : List Record) :
    SearchResult :=
  let intent := detectQueryIntentAndAmenities p
  let fs := applyFilters p intent.detectedTransaction properties
  let scored := fs.1.map (fun r => (r, calculateMadlanMatchScore r p properties))
  let sorted := scored.mergeSort scoreDescBool
  let lim := p.limit.getD 10
  let page := sorted.take lim
  { properties := page
    filters := fs.2
    totalFound := page.length
    marketStats := marketStatsOf page
    intentData := intent }

/-! ### Travel-time estimation (`get_nearest_amenities`, lines 486–523)

The geodesic distance computation is an external-library call; the travel
estimates are a pure function of the resulting distance, modelled here with
the distance as input. -/

structure TravelInfo where
  walkTimeMin : ℤ
  driveTimeMin : ℤ
  publicTransportMin : Option ℤ
  accessibilityRating : String
deriving DecidableEq

/-- Walking, driving, public-transport minutes and the accessibility tier for
one amenity at distance `d` km. -/
def travelInfo (d : ℚ) : TravelInfo :=
  let walk := max 1 (truncQ ((d / (4.5 : ℚ)) * 60))
  let walk := if d > (0.5 : ℚ) then walk + truncQ (d * 3) else walk
  let drive := max 2 (truncQ ((d / 22) * 60))
  let drive := if d > (0.8 : ℚ) then drive + truncQ (d * 2) else drive
  let pt : Option ℤ :=
    if d > (1.5 : ℚ) then some (10 + truncQ ((d / 18) * 60) + 6) else none
  let acc :=
    if d < (0.3 : ℚ) then "Excellent - Very close"
    else if d < (0.8 : ℚ) then "Very Good - Walking distance"
    else if d < (1.5 : ℚ) then "Good - Short commute"
    else "Fair - Longer commute"
  ⟨walk, drive, pt, acc⟩

/-- Modelled from the spec: the walking-minutes formula as the specification
states it — `ceil(distance / 4.5 km/h × 60)` plus a 3-minutes-per-km terrain
penalty once the distance exceeds 0.5 km.  Stated only for comparison with
the source-derived `travelInfo`. -/
def specWalkMinutes (d : ℚ) : ℤ :=
  ⌈d / (4.5 : ℚ) * 60⌉ + (if (0.5 : ℚ) < d then ⌈d * 3⌉ else 0)

/-! ### `install.py`: transaction-type classification -/

/-- `classify_transaction_type(price)`: prices below 100,000 are rentals. -/
def classifyTransactionType (price : ℚ) : String :=
  if price < 100000 then "To Let" else "For Sale"

/-- `get_price_per_sqm(price, area)`: `int(price / area)` guarded by
`if area and area > 0` (falsy, missing, zero or negative area gives 0). -/
def getPricePerSqm (price : ℚ) (area : Option ℚ) : ℤ :=
  match area with
  | none => 0
  | some a => if a ≠ 0 ∧ 0 < a then truncQ (price / a) else 0

/-! ### JSON-RPC dispatcher (`handle_request`) and stdin loop (`main`) -/

structure CallParams where
  name : Option String := none
  arguments : SearchParams := {}

structure RpcRequest where
  method : String := ""
  id : Option ℤ := none
  params : Option CallParams := none

/-- The result payload of a successful reply.  `initResult` and
`toolsListResult` stand for the fixed capability/schema dictionaries;
`toolListings`/`toolData` carry the structured search outcome of a
`tools/call` (the textual rendering is not modelled). -/
inductive RpcResult where
  | initResult
  | toolsListResult
  | toolText (text : String)
  | toolListings (search : SearchResult)
  | toolData (search : SearchResult)

inductive RpcResponse where
  | ok (id : Option ℤ) (result : RpcResult)
  | err (id : Option ℤ) (code : ℤ) (message : String)

/-- `handle_request` either returns a JSON-RPC reply dictionary or the
`"SKIP_RESPONSE"` marker (for `notifications/initialized`). -/
inductive HandleOutcome where
  | response (resp : RpcResponse)
  | skipResponse

/-- The process-wide state: the loaded dataset and the `data_loaded` flag. -/
structure ServerState where
  properties : List Record
  dataLoaded : Bool

/-- `handle_request(request)`.  Missing `request["params"]` or
`request["params"]["name"]` raises a `KeyError` that the surrounding
`try/except` turns into an internal-error reply (code −32603) carrying the
request id.  The server object is returned alongside the outcome to make the
absence of state mutation explicit: no branch assigns to
`self.properties_df` or any other field. -/
noncomputable def handleRequest (st : ServerState) (req : RpcRequest) :
    HandleOutcome × ServerState :=
  if req.method = "initialize" then
    (.response (.ok req.id .initResult), st)
  else if req.method = "notifications/initialized" then
    (.skipResponse, st)
  else if req.method = "tools/list" then
    (.response (.ok req.id .toolsListResult), st)
  else if req.method = "tools/call" then
    if st.dataLoaded = false then
      (.response (.ok req.id (.toolText "Data not loaded. Please run install.py first.")), st)
    else
      match req.params with
      | none => (.response (.err req.id (-32603) "Internal error: params"), st)
      | some ps =>
        match ps.name with
        | none => (.response (.err req.id (-32603) "Internal error: name"), st)
        | some toolName =>
          if toolName = "Madlan_MCP" then
            let result := searchProperties ps.arguments st.properties
            if result.intentData.formatMode = "listings" then
              (.response (.ok req.id (.toolListings result)), st)
            else
              (.response (.ok req.id (.toolData result)), st)
          else
            (.response (.err req.id (-32601) ("Unknown tool: " ++ toolName)), st)
  else
    (.response (.err req.id (-32601) ("Unknown method: " ++ req.method)), st)

/-- One line read from stdin: blank (skipped), malformed JSON
(`json.JSONDecodeError` with message `msg`), or a parsed request. -/
inductive InputLine where
  | empty
  | malformed (msg : String)
  | parsed (req : RpcRequest)

/-- The `main` loop: one reply per non-blank line; a malformed line yields a
parse-error reply (code −32700, id null) and the loop continues. -/
noncomputable def mainLoop (st : ServerState) : List InputLine → List RpcResponse
  | [] => []
  | .empty :: rest => mainLoop st rest
  | .malformed msg :: rest =>
      .err none (-32700) ("Parse error: " ++ msg) :: mainLoop st rest
  | .parsed req :: rest =>
      match handleRequest st req with
      | (.response r, st2) => r :: mainLoop st2 rest
      | (.skipResponse, st2) => mainLoop st2 rest

/-! ### Concrete sample data used by witnesses and counterexamples -/

/-- A plain record: no features, unknown facility distances. -/
def rBase : Record :=
  { publishDaysOld := some 0, sellerType := "agent", rooms := 4, price := 100,
    floors := 3, area := 100, city := "Haifa", neighbourhood := "Hadar",
    street := "Herzl", propertyType := "FLAT", transactionType := "For Sale",
    hasBalconies := false, hasElevator := false, hasParking := false,
    schoolDistKm := 999, clinicDistKm := 999 }

/-- Expensive small record, filtered out by a 60-NIS price cap. -/
def rC2A : Record :=
  { publishDaysOld := none, sellerType := "agent", rooms := 4, price := 100,
    floors := 3, area := 100, city := "Haifa", neighbourhood := "Hadar",
    street := "Herzl", propertyType := "FLAT", transactionType := "For Sale",
    hasBalconies := false, hasElevator := false, hasParking := false,
    schoolDistKm := 999, clinicDistKm := 999 }

/-- Cheap large record that survives the 60-NIS price cap. -/
def rC2B : Record :=
  { publishDaysOld := none, sellerType := "owner", rooms := 3, price := 50,
    floors := 2, area := 200, city := "Haifa", neighbourhood := "Hadar",
    street := "Herzl", propertyType := "FLAT", transactionType := "For Sale",
    hasBalconies := false, hasElevator := false, hasParking := false,
    schoolDistKm := 999, clinicDistKm := 999 }

/-- Request with only a price cap of 60. -/
def pC2 : SearchParams := { maxPrice := some 60 }

/-- Strictly cheaper, larger, newer, fully featured — but with the 999
sentinel school distance. -/
def rDom : Record :=
  { publishDaysOld := some 0, sellerType := "agent", rooms := 4, price := 50,
    floors := 3, area := 200, city := "Haifa", neighbourhood := "Hadar",
    street := "Herzl", propertyType := "FLAT", transactionType := "For Sale",
    hasBalconies := true, hasElevator := true, hasParking := true,
    schoolDistKm := 999, clinicDistKm := 999 }

/-- Dominated on every metadata axis, but right next to a school. -/
def rPeer : Record :=
  { publishDaysOld := some 365, sellerType := "owner", rooms := 3, price := 100,
    floors := 2, area := 100, city := "Haifa", neighbourhood := "Hadar",
    street := "Herzl", propertyType := "FLAT", transactionType := "For Sale",
    hasBalconies := false, hasElevator := false, hasParking := false,
    schoolDistKm := 0, clinicDistKm := 999 }

/-- Request that asks for school proximity. -/
def pC4 : SearchParams := { nearSchools := true }

/-- Server state for protocol witnesses. -/
def stW : ServerState := { properties := [], dataLoaded := true }

/-- Request with an unrecognised method name. -/
def reqW : RpcRequest := { method := "frobnicate", id := some 7 }

/-! ## Helper lemmas -/

theorem truncQ_of_nonneg {q : ℚ} (h : 0 ≤ q) : truncQ q = ⌊q⌋ := by
  unfold truncQ
  rw [if_neg (not_lt.mpr h)]

theorem floor_le_rhe {K : Type*} [LinearOrderedField K] [FloorRing K] (x : K) :
    ⌊x⌋ ≤ rhe x := by
  unfold rhe
  split_ifs <;> omega

theorem rhe_le_floor_add_one {K : Type*} [LinearOrderedField K] [FloorRing K] (x : K) :
    rhe x ≤ ⌊x⌋ + 1 := by
  unfold rhe
  split_ifs <;> omega

theorem rhe_nonneg {K : Type*} [LinearOrderedField K] [FloorRing K] {x : K}
    (h : 0 ≤ x) : 0 ≤ rhe x :=
  le_trans (Int.le_floor.mpr (by exact_mod_cast h)) (floor_le_rhe x)

theorem rhe_mono {K : Type*} [LinearOrderedField K] [FloorRing K] {x y : K}
    (h : x ≤ y) : rhe x ≤ rhe y := by
  rcases lt_or_ge ⌊x⌋ ⌊y⌋ with hf | hf
  · calc rhe x ≤ ⌊x⌋ + 1 := rhe_le_floor_add_one x
      _ ≤ ⌊y⌋ := by omega
      _ ≤ rhe y := floor_le_rhe y
  · have hfe : ⌊x⌋ = ⌊y⌋ := le_antisymm (Int.floor_mono h) hf
    have hfr : Int.fract x ≤ Int.fract y := by
      simp only [Int.fract, hfe]
      linarith
    unfold rhe
    rw [hfe]
    split_ifs <;> first | omega | linarith

theorem rhe_ratCast (q : ℚ) : rhe ((q : ℝ)) = rhe q := by
  have hfl : ⌊((q : ℝ))⌋ = ⌊q⌋ := Rat.floor_cast q
  have hfr : Int.fract ((q : ℝ)) = ((Int.fract q : ℚ) : ℝ) := by
    simp only [Int.fract, hfl]
    push_cast
    ring
  have h1 : (Int.fract ((q : ℝ)) < 1 / 2) ↔ (Int.fract q < 1 / 2) := by
    rw [hfr, show (1 : ℝ) / 2 = (((1 : ℚ) / 2 : ℚ) : ℝ) by norm_num, Rat.cast_lt]
  have h2 : ((1 : ℝ) / 2 < Int.fract ((q : ℝ))) ↔ ((1 : ℚ) / 2 < Int.fract q) := by
    rw [hfr, show (1 : ℝ) / 2 = (((1 : ℚ) / 2 : ℚ) : ℝ) by norm_num, Rat.cast_lt]
  unfold rhe
  rw [hfl]
  by_cases hc1 : Int.fract q < 1 / 2
  · rw [if_pos hc1, if_pos (h1.mpr hc1)]
  · rw [if_neg hc1, if_neg (fun hh => hc1 (h1.mp hh))]
    by_cases hc2 : (1 : ℚ) / 2 < Int.fract q
    · rw [if_pos hc2, if_pos (h2.mpr hc2)]
    · rw [if_neg hc2, if_neg (fun hh => hc2 (h2.mp hh))]

theorem round1_mono {K : Type*} [LinearOrderedField K] [FloorRing K] {x y : K}
    (h : x ≤ y) : round1 x ≤ round1 y := by
  unfold round1
  have h10 : (10 : K) * x ≤ 10 * y := by linarith
  have := rhe_mono h10
  have hc : ((rhe (10 * x) : ℤ) : K) ≤ ((rhe (10 * y) : ℤ) : K) := by exact_mod_cast this
  linarith

theorem round1_nonneg {K : Type*} [LinearOrderedField K] [FloorRing K] {x : K}
    (h : 0 ≤ x) : 0 ≤ round1 x := by
  unfold round1
  have : (0 : ℤ) ≤ rhe (10 * x) := rhe_nonneg (by linarith)
  have hc : (0 : K) ≤ ((rhe (10 * x) : ℤ) : K) := by exact_mod_cast this
  linarith

theorem round1_ratCast (q : ℚ) : round1 ((q : ℝ)) = ((round1 q : ℚ) : ℝ) := by
  unfold round1
  rw [show ((10 : ℝ) * (q : ℝ)) = (((10 * q : ℚ)) : ℝ) by push_cast; ring, rhe_ratCast]
  push_cast
  ring

theorem priceScoreOf_nonneg (r : Record) (pool : List Record) :
    0 ≤ priceScoreOf r pool := by
  unfold priceScoreOf
  split_ifs with h
  · have hcnt : (List.countP (fun c => decide (c.price < r.price)) pool : ℚ) /
        (pool.length : ℚ) ≤ 1 := by
      apply div_le_one_of_le₀
      · exact_mod_cast List.countP_le_length _
      · positivity
    linarith
  · exact le_refl _

theorem areaScoreOf_nonneg (r : Record) (pool : List Record) :
    0 ≤ areaScoreOf r pool := by
  unfold areaScoreOf
  split_ifs with h
  · positivity
  · exact le_refl _

theorem featureScoreOf_nonneg (r : Record) : 0 ≤ featureScoreOf r := by
  unfold featureScoreOf
  split_ifs <;> norm_num

theorem featureScoreOf_le (r : Record) : featureScoreOf r ≤ 15 := by
  unfold featureScoreOf
  split_ifs <;> norm_num

theorem recencyScoreOf_nonneg (r : Record) : 0 ≤ recencyScoreOf r := by
  unfold recencyScoreOf
  cases r.publishDaysOld with
  | none => norm_num
  | some d => exact le_max_left 0 _

theorem metadataScore_nonneg (r : Record) (pool : List Record) :
    0 ≤ metadataScore r pool := by
  unfold metadataScore
  have h1 := priceScoreOf_nonneg r pool
  have h2 := areaScoreOf_nonneg r pool
  have h3 := featureScoreOf_nonneg r
  have h4 := recencyScoreOf_nonneg r
  linarith

theorem contextScore_nonneg (r : Record) (p : SearchParams) :
    0 ≤ contextScore r p := by
  unfold contextScore
  split_ifs with h1 h2
  · refine le_min (by norm_num) ?_
    have := Real.exp_nonneg (-(r.schoolDistKm : ℝ) * 2)
    linarith
  · exact le_refl _
  · norm_num

theorem contextScore_of_not_nearSchools {r : Record} {p : SearchParams}
    (h : p.nearSchools = false) : contextScore r p = ((25 : ℚ) : ℝ) := by
  unfold contextScore
  rw [h]
  norm_num

theorem contextScore_of_sentinel {r : Record} {p : SearchParams}
    (h : p.nearSchools = true) (hd : ¬ r.schoolDistKm < 999) :
    contextScore r p = ((0 : ℚ) : ℝ) := by
  unfold contextScore
  rw [h, if_pos rfl, if_neg hd]
  norm_num

theorem contextScore_of_zero_dist {r : Record} {p : SearchParams}
    (h : p.nearSchools = true) (hd : r.schoolDistKm = 0) :
    contextScore r p = ((50 : ℚ) : ℝ) := by
  unfold contextScore
  rw [h, if_pos rfl, if_pos (by rw [hd]; norm_num), hd]
  norm_num [Real.exp_zero]

/-- When the context score is (the cast of) a rational `c`, the whole match
score is the cast of a rational expression. -/
theorem calculateMadlanMatchScore_eq_rat (r : Record) (p : SearchParams)
    (pool : List Record) (c : ℚ) (hc : contextScore r p = ((c : ℚ) : ℝ)) :
    calculateMadlanMatchScore r p pool =
      ((min 100 (round1 (metadataScore r pool + c)) : ℚ) : ℝ) := by
  unfold calculateMadlanMatchScore
  rw [hc,
    show ((metadataScore r pool : ℚ) : ℝ) + ((c : ℚ) : ℝ)
        = (((metadataScore r pool + c : ℚ)) : ℝ) by push_cast; ring,
    round1_ratCast,
    show (100 : ℝ) = ((100 : ℚ) : ℝ) by norm_num,
    ← Rat.cast_min]

/-! ## Claims -/

/-- Claim C8: `classify_transaction_type` assigns `To Let` to every price
below 100,000 and `For Sale` to every price of 100,000 or more; in particular
1,500,000 → `For Sale`, 8,000 → `To Let`, and exactly 100,000 → `For Sale`. -/
theorem claim_c8_classify :
    (∀ price : ℚ, price < 100000 → classifyTransactionType price = "To Let") ∧
    (∀ price : ℚ, 100000 ≤ price → classifyTransactionType price = "For Sale") ∧
    classifyTransactionType 1500000 = "For Sale" ∧
    classifyTransactionType 8000 = "To Let" ∧
    classifyTransactionType 100000 = "For Sale" := by
  refine ⟨?_, ?_, ?_, ?_, ?_⟩
  · intro price h
    unfold classifyTransactionType
    rw [if_pos h]
  · intro price h
    unfold classifyTransactionType
    rw [if_neg (not_lt.mpr h)]
  · norm_num [classifyTransactionType]
  · norm_num [classifyTransactionType]
  · norm_num [classifyTransactionType]

/-- Witness for C8 at concrete inputs on both sides of the boundary. -/
theorem claim_c8_witness :
    classifyTransactionType 99999 = "To Let" ∧
    classifyTransactionType 250000 = "For Sale" :=
  ⟨claim_c8_classify.1 99999 (by norm_num), claim_c8_classify.2.1 250000 (by norm_num)⟩

/-- Claim C10: `get_price_per_sqm` is total — missing, zero or negative area
gives 0 instead of a division error; a positive area gives the integer part
(truncation) of `price / area`. -/
theorem claim_c10_price_per_sqm :
    (∀ price : ℚ, getPricePerSqm price none = 0) ∧
    (∀ price a : ℚ, a ≤ 0 → getPricePerSqm price (some a) = 0) ∧
    (∀ price a : ℚ, 0 < a → getPricePerSqm price (some a) = truncQ (price / a)) := by
  refine ⟨fun _ => rfl, ?_, ?_⟩
  · intro price a h
    simp only [getPricePerSqm]
    rw [if_neg]
    rintro ⟨h1, h2⟩
    linarith
  · intro price a h
    simp only [getPricePerSqm]
    rw [if_pos ⟨ne_of_gt h, h⟩]

/-- Witness for C10: a missing area, a zero area, a negative area, and a
regular division all evaluate as claimed. -/
theorem claim_c10_witness :
    getPricePerSqm 1000000 none = 0 ∧
    getPricePerSqm 1000000 (some 0) = 0 ∧
    getPricePerSqm 1000000 (some (-5)) = 0 ∧
    getPricePerSqm 1000000 (some 80) = 12500 :=
  ⟨claim_c10_price_per_sqm.1 1000000,
   claim_c10_price_per_sqm.2.1 1000000 0 (by norm_num),
   claim_c10_price_per_sqm.2.1 1000000 (-5) (by norm_num),
   (claim_c10_price_per_sqm.2.2 1000000 80 (by norm_num)).trans
     (by norm_num [truncQ])⟩

/-- Claim C5 (counterexample): at distance 0.1 km the code reports
`max(1, int(0.1/4.5*60)) = 1` walking minute, while the spec's ceil-based
formula gives 2 — the rounding direction differs. -/
theorem claim_c5_counterexample :
    (travelInfo (1/10)).walkTimeMin = 1 ∧ specWalkMinutes (1/10) = 2 ∧
    (travelInfo (1/10)).walkTimeMin ≠ specWalkMinutes (1/10) := by
  have h1 : (travelInfo (1/10)).walkTimeMin = 1 := by
    norm_num [travelInfo, truncQ]
  have h2 : specWalkMinutes (1/10) = 2 := by
    unfold specWalkMinutes
    rw [if_neg (by norm_num), show ⌈(1:ℚ)/10 / (4.5:ℚ) * 60⌉ = 2 from by
      rw [Int.ceil_eq_iff]
      norm_num]
    norm_num
  exact ⟨h1, h2, by rw [h1, h2]; norm_num⟩

/-- Claim C5 (amended): the walking time reported for distance `d ≥ 0` is
`max(1, floor(d / 4.5 × 60))` — `int()` truncation with a one-minute floor,
not a ceiling — plus a `floor(3·d)`-minute terrain penalty once `d`
exceeds 0.5 km. -/
theorem claim_c5_walk_time (d : ℚ) (hd : 0 ≤ d) :
    (travelInfo d).walkTimeMin =
      max 1 ⌊d / (4.5 : ℚ) * 60⌋ + (if (0.5 : ℚ) < d then ⌊d * 3⌋ else 0) := by
  have hq : (0:ℚ) ≤ d / (4.5 : ℚ) * 60 := by
    apply mul_nonneg (div_nonneg hd (by norm_num)) (by norm_num)
  have hq3 : (0:ℚ) ≤ d * 3 := by linarith
  unfold travelInfo
  simp only
  split_ifs with h
  · rw [truncQ_of_nonneg hq, truncQ_of_nonneg hq3]
  · rw [truncQ_of_nonneg hq, add_zero]

/-- Witness for the amended C5 at distance 2 km. -/
theorem claim_c5_witness :
    (0:ℚ) ≤ 2 ∧
    (travelInfo 2).walkTimeMin =
      max 1 ⌊(2:ℚ) / (4.5 : ℚ) * 60⌋ + (if (0.5 : ℚ) < (2:ℚ) then ⌊(2:ℚ) * 3⌋ else 0) :=
  ⟨by norm_num, claim_c5_walk_time 2 (by norm_num)⟩

/-- Claim C1: in the transaction-filter stage of `search_properties`, a truthy
explicit `transaction_type` parameter makes the explicit filter the only one
applied — the classifier-inferred type is ignored whatever it is; the inferred
filter runs exactly when no truthy explicit parameter was given. -/
theorem claim_c1_explicit_overrides :
    (∀ (p : SearchParams) (detected : Option String) (df : List Record)
        (fs : List String),
      strTruthy p.transactionType = true →
      applyTransactionFilters p detected df fs =
        (df.filter (fun r => r.transactionType == p.transactionType.getD ""),
         fs ++ ["Transaction type: " ++ p.transactionType.getD ""])) ∧
    (∀ (p : SearchParams) (dt : String) (df : List Record) (fs : List String),
      strTruthy p.transactionType = false → dt ≠ "" →
      applyTransactionFilters p (some dt) df fs =
        (df.filter (fun r => r.transactionType == dt),
         fs ++ ["Auto-detected: " ++ dt ++ " properties only"])) := by
  constructor
  · intro p detected df fs h
    unfold applyTransactionFilters
    simp [h]
  · intro p dt df fs h hdt
    have hsd : strTruthy (some dt) = true := by
      simp [strTruthy, hdt]
    unfold applyTransactionFilters
    simp [h, hsd]

/-- Witness for C1: an explicit `For Sale` filter beats an inferred `To Let`,
and with no explicit filter the inferred `To Let` applies. -/
theorem claim_c1_witness :
    applyTransactionFilters { transactionType := some "For Sale" } (some "To Let")
        [rBase] [] =
      ([rBase].filter (fun r => r.transactionType == "For Sale"),
       ["Transaction type: " ++ "For Sale"]) ∧
    applyTransactionFilters {} (some "To Let") [rBase] [] =
      ([rBase].filter (fun r => r.transactionType == "To Let"),
       ["Auto-detected: " ++ "To Let" ++ " properties only"]) := by
  constructor
  · have := claim_c1_explicit_overrides.1
      { transactionType := some "For Sale" } (some "To Let") [rBase] [] (by decide)
    simpa using this
  · have := claim_c1_explicit_overrides.2 {} "To Let" [rBase] [] (by decide) (by decide)
    simpa using this

/-- Claim C7: any request whose method is not one of the four recognised
methods gets a −32601 "Unknown method" error reply (the dispatcher does not
crash), and a malformed input line produces a −32700 parse-error reply after
which the loop processes the remaining lines normally. -/
theorem claim_c7_dispatcher :
    (∀ (st : ServerState) (req : RpcRequest),
      req.method ≠ "initialize" → req.method ≠ "notifications/initialized" →
      req.method ≠ "tools/list" → req.method ≠ "tools/call" →
      (handleRequest st req).1 =
        .response (.err req.id (-32601) ("Unknown method: " ++ req.method))) ∧
    (∀ (st : ServerState) (msg : String) (rest : List InputLine),
      mainLoop st (.malformed msg :: rest) =
        .err none (-32700) ("Parse error: " ++ msg) :: mainLoop st rest) := by
  constructor
  · intro st req h1 h2 h3 h4
    unfold handleRequest
    rw [if_neg h1, if_neg h2, if_neg h3, if_neg h4]
  · intro st msg rest
    rfl

/-- Witness for C7: a `frobnicate` request is answered with −32601, and a
malformed line followed by nothing yields exactly the parse-error reply. -/
theorem claim_c7_witness :
    (handleRequest stW reqW).1 =
      .response (.err (some 7) (-32601) ("Unknown method: " ++ "frobnicate")) ∧
    mainLoop stW [.malformed "bad json"] =
      [.err none (-32700) ("Parse error: " ++ "bad json")] := by
  constructor
  · exact claim_c7_dispatcher.1 stW reqW (by decide) (by decide) (by decide) (by decide)
  · exact claim_c7_dispatcher.2 stW "bad json" []

/-- Claim C9: handling any request leaves the process-wide server state (the
dataset and the amenity catalogs are part of it) unchanged — no branch of the
dispatcher, including the whole search path, mutates it. -/
theorem claim_c9_no_mutation :
    ∀ (st : ServerState) (req : RpcRequest), (handleRequest st req).2 = st := by
  intro st req
  unfold handleRequest
  repeat' split
  all_goals try rfl
  all_goals dsimp only
  all_goals split <;> rfl

/-- Claim C3: the aggregate statistics of a search result are computed over
exactly the post-truncation page — the list of records the result carries
after sorting and `head(limit)` — whose length never exceeds the requested
limit (default 10). -/
theorem claim_c3_stats_over_page :
    ∀ (p : SearchParams) (ds : List Record),
      (searchProperties p ds).marketStats =
        marketStatsOf (searchProperties p ds).properties ∧
      (searchProperties p ds).properties.length ≤ p.limit.getD 10 := by
  intro p ds
  constructor
  · rfl
  · exact List.length_take_le _ _

/-- Claim C2 (amended): every score attached to a record of a search result is
`calculate_madlan_match_score` evaluated with the **entire loaded dataset**
(`self.properties_df`) as the percentile pool — computed before truncation,
but over the unfiltered table rather than the filtered candidate pool. -/
theorem claim_c2_scores_over_dataset :
    ∀ (p : SearchParams) (ds : List Record) (x : Record × ℝ),
      x ∈ (searchProperties p ds).properties →
      x.2 = calculateMadlanMatchScore x.1 p ds := by
  intro p ds x hx
  have hx2 : x ∈ (((applyFilters p
      (detectQueryIntentAndAmenities p).detectedTransaction ds).1.map
        (fun r => (r, calculateMadlanMatchScore r p ds))).mergeSort
          scoreDescBool).take (p.limit.getD 10) := hx
  have hx3 := List.mem_of_mem_take hx2
  rw [List.mem_mergeSort] at hx3
  obtain ⟨r, _, heq⟩ := List.mem_map.mp hx3
  cases heq
  rfl

theorem metadataScore_rC2B_full : metadataScore rC2B [rC2A, rC2B] = 25 := by
  have hp : priceScoreOf rC2B [rC2A, rC2B] = 15 := by
    simp [priceScoreOf, rC2A, rC2B]
    norm_num
  have ha : areaScoreOf rC2B [rC2A, rC2B] = 5 := by
    simp [areaScoreOf, rC2A, rC2B]
    norm_num
  have hf : featureScoreOf rC2B = 0 := by
    simp [featureScoreOf, rC2B]
  have hr : recencyScoreOf rC2B = 5 := by
    simp [recencyScoreOf, rC2B]
  rw [metadataScore, hp, ha, hf, hr]
  norm_num

theorem metadataScore_rC2B_filtered : metadataScore rC2B [rC2B] = 5 := by
  have hp : priceScoreOf rC2B [rC2B] = 0 := by
    simp [priceScoreOf]
  have ha : areaScoreOf rC2B [rC2B] = 0 := by
    simp [areaScoreOf, rC2B]
  have hf : featureScoreOf rC2B = 0 := by
    simp [featureScoreOf, rC2B]
  have hr : recencyScoreOf rC2B = 5 := by
    simp [recencyScoreOf, rC2B]
  rw [metadataScore, hp, ha, hf, hr]
  norm_num

theorem round1_fifty : round1 ((50 : ℚ)) = 50 := by
  norm_num [round1, rhe, Int.fract]

theorem round1_thirty : round1 ((30 : ℚ)) = 30 := by
  norm_num [round1, rhe, Int.fract]

/-- Claim C2 (counterexample): with dataset `[rC2A, rC2B]` and a price cap of
60 the filtered candidate pool is `[rC2B]`, yet the score the pipeline attaches
to `rC2B` is 50 — its percentiles were taken over the full two-record dataset —
while the score computed over the filtered pool would be 30. -/
theorem claim_c2_counterexample :
    (detectQueryIntentAndAmenities pC2).detectedTransaction = none ∧
    (applyFilters pC2 none [rC2A, rC2B]).1 = [rC2B] ∧
    (searchProperties pC2 [rC2A, rC2B]).properties.map (fun x => x.2) = [((50 : ℚ) : ℝ)] ∧
    calculateMadlanMatchScore rC2B pC2 [rC2B] = ((30 : ℚ) : ℝ) ∧
    ((50 : ℚ) : ℝ) ≠ ((30 : ℚ) : ℝ) := by
  have hdet : (detectQueryIntentAndAmenities pC2).detectedTransaction = none := by decide
  have happ : (applyFilters pC2 none [rC2A, rC2B]).1 = [rC2B] := by decide
  have hfull : calculateMadlanMatchScore rC2B pC2 [rC2A, rC2B] = ((50 : ℚ) : ℝ) := by
    rw [calculateMadlanMatchScore_eq_rat _ _ _ 25
      (contextScore_of_not_nearSchools rfl), metadataScore_rC2B_full]
    rw [show (25 : ℚ) + 25 = 50 by norm_num, round1_fifty]
    norm_num
  have hfilt : calculateMadlanMatchScore rC2B pC2 [rC2B] = ((30 : ℚ) : ℝ) := by
    rw [calculateMadlanMatchScore_eq_rat _ _ _ 25
      (contextScore_of_not_nearSchools rfl), metadataScore_rC2B_filtered]
    rw [show (5 : ℚ) + 25 = 30 by norm_num, round1_thirty]
    norm_num
  have hprop : (searchProperties pC2 [rC2A, rC2B]).properties
      = [(rC2B, calculateMadlanMatchScore rC2B pC2 [rC2A, rC2B])] := by
    have h1 : (searchProperties pC2 [rC2A, rC2B]).properties
        = (((applyFilters pC2
            (detectQueryIntentAndAmenities pC2).detectedTransaction [rC2A, rC2B]).1.map
              (fun r => (r, calculateMadlanMatchScore r pC2 [rC2A, rC2B]))).mergeSort
                scoreDescBool).take (pC2.limit.getD 10) := rfl
    rw [h1, hdet, happ]
    simp [List.mergeSort_singleton]
    decide
  refine ⟨hdet, happ, ?_, hfilt, by norm_num⟩
  rw [hprop]
  simp [hfull]

/-- Witness for the amended C2: on a one-record dataset with no filters, the
single result entry carries exactly the score computed over the dataset. -/
theorem claim_c2_witness :
    (rBase, calculateMadlanMatchScore rBase {} [rBase]) ∈
      (searchProperties {} [rBase]).properties ∧
    (rBase, calculateMadlanMatchScore rBase {} [rBase]).2 =
      calculateMadlanMatchScore
        (rBase, calculateMadlanMatchScore rBase {} [rBase]).1 {} [rBase] := by
  have hdet : (detectQueryIntentAndAmenities {}).detectedTransaction = none := by decide
  have happ : (applyFilters {} none [rBase]).1 = [rBase] := by decide
  have hprop : (searchProperties {} [rBase]).properties
      = [(rBase, calculateMadlanMatchScore rBase {} [rBase])] := by
    have h1 : (searchProperties {} [rBase]).properties
        = (((applyFilters {}
            (detectQueryIntentAndAmenities {}).detectedTransaction [rBase]).1.map
              (fun r => (r, calculateMadlanMatchScore r {} [rBase]))).mergeSort
                scoreDescBool).take ((SearchParams.limit {}).getD 10) := rfl
    rw [h1, hdet, happ]
    simp [List.mergeSort_singleton]
  constructor
  · rw [hprop]
    exact List.mem_singleton.mpr rfl
  · exact claim_c2_scores_over_dataset {} [rBase]
      (rBase, calculateMadlanMatchScore rBase {} [rBase])
      (by rw [hprop]; exact List.mem_singleton.mpr rfl)

theorem metadataScore_rDom : metadataScore rDom [rDom, rPeer] = 45 := by
  have hp : priceScoreOf rDom [rDom, rPeer] = 15 := by
    simp [priceScoreOf, rDom, rPeer]
    norm_num
  have ha : areaScoreOf rDom [rDom, rPeer] = 5 := by
    simp [areaScoreOf, rDom, rPeer]
    norm_num
  have hf : featureScoreOf rDom = 15 := by
    simp [featureScoreOf, rDom]
    try norm_num
  have hr : recencyScoreOf rDom = 10 := by
    simp [recencyScoreOf, rDom]
    try norm_num
  rw [metadataScore, hp, ha, hf, hr]
  norm_num

theorem metadataScore_rPeer : metadataScore rPeer [rDom, rPeer] = 15 / 2 := by
  have hp : priceScoreOf rPeer [rDom, rPeer] = 15 / 2 := by
    simp [priceScoreOf, rDom, rPeer]
    norm_num
  have ha : areaScoreOf rPeer [rDom, rPeer] = 0 := by
    simp [areaScoreOf, rDom, rPeer]
    try norm_num
  have hf : featureScoreOf rPeer = 0 := by
    simp [featureScoreOf, rPeer]
  have hr : recencyScoreOf rPeer = 0 := by
    simp [recencyScoreOf, rPeer]
    try norm_num
  rw [metadataScore, hp, ha, hf, hr]
  norm_num

/-- Claim C4 (counterexample): in the pool `[rDom, rPeer]`, `rDom` is strictly
cheaper, strictly larger, strictly newer and fully featured, yet with school
proximity requested its score (45.0 — sentinel school distance, so no context
points) is strictly below `rPeer`'s (57.5 — a school next door contributes the
full 50 context points).  The dominant record does not attain the pool
maximum. -/
theorem claim_c4_counterexample :
    rDom.price < rPeer.price ∧ rPeer.area < rDom.area ∧
    rDom.publishDaysOld = some 0 ∧ rPeer.publishDaysOld = some 365 ∧
    rDom.hasParking = true ∧ rDom.hasElevator = true ∧ rDom.hasBalconies = true ∧
    calculateMadlanMatchScore rDom pC4 [rDom, rPeer] <
      calculateMadlanMatchScore rPeer pC4 [rDom, rPeer] := by
  have hsDom : calculateMadlanMatchScore rDom pC4 [rDom, rPeer] = ((45 : ℚ) : ℝ) := by
    rw [calculateMadlanMatchScore_eq_rat _ _ _ 0
      (contextScore_of_sentinel rfl (by norm_num [rDom])), metadataScore_rDom]
    norm_num [round1, rhe, Int.fract]
  have hsPeer : calculateMadlanMatchScore rPeer pC4 [rDom, rPeer] = ((115 / 2 : ℚ) : ℝ) := by
    rw [calculateMadlanMatchScore_eq_rat _ _ _ 50
      (contextScore_of_zero_dist rfl rfl), metadataScore_rPeer]
    norm_num [round1, rhe, Int.fract]
  refine ⟨by norm_num [rDom, rPeer], by norm_num [rDom, rPeer], rfl, rfl, rfl, rfl, rfl, ?_⟩
  rw [hsDom, hsPeer]
  exact_mod_cast (show (45 : ℚ) < 115 / 2 by norm_num)

/-- Claim C4 (amended): every match score over a non-empty pool lies in
[0, 100]; and when school proximity was **not** requested (so every record
gets the flat 25-point context baseline), a record that is strictly cheaper,
strictly larger, strictly newer (all publish dates parseable) and fully
featured compared with all its peers attains the maximum score of the pool.
When school proximity is requested the 50-point proximity term can outweigh
the dominant record's advantages (see the counterexample). -/
theorem claim_c4_score_range_and_dominance :
    (∀ (r : Record) (p : SearchParams) (pool : List Record), pool ≠ [] →
        0 ≤ calculateMadlanMatchScore r p pool ∧
        calculateMadlanMatchScore r p pool ≤ 100) ∧
    (∀ (p : SearchParams) (pool : List Record) (a : Record),
        p.nearSchools = false → a ∈ pool →
        a.hasParking = true → a.hasElevator = true → a.hasBalconies = true →
        (∀ b ∈ pool, b.publishDaysOld.isSome = true) →
        (∀ b ∈ pool, b ≠ a → a.price < b.price ∧ b.area < a.area ∧
            (∀ da db : ℤ, a.publishDaysOld = some da → b.publishDaysOld = some db →
              da < db)) →
        ∀ b ∈ pool, calculateMadlanMatchScore b p pool ≤
          calculateMadlanMatchScore a p pool) := by
  constructor
  · intro r p pool _
    constructor
    · unfold calculateMadlanMatchScore
      refine le_min (by norm_num) (round1_nonneg ?_)
      have h1 : (0 : ℝ) ≤ ((metadataScore r pool : ℚ) : ℝ) := by
        exact_mod_cast metadataScore_nonneg r pool
      have h2 := contextScore_nonneg r p
      linarith
    · exact min_le_left _ _
  · intro p pool a hns ha hpk hel hbc hdates hdom b hb
    by_cases hba : b = a
    · subst hba
      exact le_refl _
    · have hlen : 0 < pool.length := List.length_pos.mpr (List.ne_nil_of_mem hb)
      have h1 : priceScoreOf b pool ≤ priceScoreOf a pool := by
        unfold priceScoreOf
        split_ifs with hn
        · have hcA : List.countP (fun c => decide (c.price < a.price)) pool = 0 := by
            rw [List.countP_eq_zero]
            intro c hc
            simp only [decide_eq_true_eq, not_lt]
            by_cases hca : c = a
            · subst hca
              exact le_refl _
            · exact le_of_lt (hdom c hc hca).1
          rw [hcA]
          have hpos : (0 : ℚ) ≤
              (List.countP (fun c => decide (c.price < b.price)) pool : ℚ) /
                (pool.length : ℚ) := by positivity
          simp only [Nat.cast_zero, zero_div]
          linarith
        · exact le_refl _
      have h2 : areaScoreOf b pool ≤ areaScoreOf a pool := by
        have harea : b.area < a.area := (hdom b hb hba).2.1
        by_cases hb0 : 0 < b.area
        · have ha0 : 0 < a.area := lt_trans hb0 harea
          unfold areaScoreOf
          rw [if_pos hb0, if_pos ha0]
          have hcnt : List.countP (fun c => decide (c.area < b.area)) pool ≤
              List.countP (fun c => decide (c.area < a.area)) pool := by
            apply List.countP_mono_left
            intro x _ hx
            simp only [decide_eq_true_eq] at hx ⊢
            exact lt_trans hx harea
          have hdiv : (List.countP (fun c => decide (c.area < b.area)) pool : ℚ) /
              (pool.length : ℚ) ≤
              (List.countP (fun c => decide (c.area < a.area)) pool : ℚ) /
                (pool.length : ℚ) := by
            gcongr
            try exact_mod_cast hcnt
          linarith
        · calc areaScoreOf b pool = 0 := by
                unfold areaScoreOf
                rw [if_neg hb0]
            _ ≤ areaScoreOf a pool := areaScoreOf_nonneg a pool
      have h3 : featureScoreOf b ≤ featureScoreOf a := by
        have hfa : featureScoreOf a = 15 := by
          unfold featureScoreOf
          rw [hpk, hel, hbc]
          norm_num
        rw [hfa]
        exact featureScoreOf_le b
      have h4 : recencyScoreOf b ≤ recencyScoreOf a := by
        obtain ⟨da, hda⟩ := Option.isSome_iff_exists.mp (hdates a ha)
        obtain ⟨db, hdb⟩ := Option.isSome_iff_exists.mp (hdates b hb)
        have hlt := (hdom b hb hba).2.2 da db hda hdb
        simp only [recencyScoreOf, hda, hdb]
        apply max_le_max (le_refl 0)
        have hcast : (da : ℚ) ≤ (db : ℚ) := by exact_mod_cast le_of_lt hlt
        have hdiv : (da : ℚ) / 365 ≤ (db : ℚ) / 365 := by gcongr
        linarith
      have hm : metadataScore b pool ≤ metadataScore a pool := by
        unfold metadataScore
        linarith
      rw [calculateMadlanMatchScore_eq_rat b p pool 25
            (contextScore_of_not_nearSchools hns),
          calculateMadlanMatchScore_eq_rat a p pool 25
            (contextScore_of_not_nearSchools hns)]
      have hq : (min 100 (round1 (metadataScore b pool + 25)) : ℚ) ≤
          min 100 (round1 (metadataScore a pool + 25)) :=
        min_le_min (le_refl _) (round1_mono (by linarith))
      exact_mod_cast hq

/-- Witness for the amended C4: a one-record pool is in range, and in the pool
`[rDom, rPeer]` without a school-proximity request the dominant `rDom`
attains the maximum. -/
theorem claim_c4_witness :
    (0 ≤ calculateMadlanMatchScore rBase {} [rBase] ∧
      calculateMadlanMatchScore rBase {} [rBase] ≤ 100) ∧
    calculateMadlanMatchScore rPeer {} [rDom, rPeer] ≤
      calculateMadlanMatchScore rDom {} [rDom, rPeer] := by
  constructor
  · exact claim_c4_score_range_and_dominance.1 rBase {} [rBase] (by simp)
  · refine claim_c4_score_range_and_dominance.2 {} [rDom, rPeer] rDom rfl
      (by simp) rfl rfl rfl (by decide) ?_ rPeer (by simp)
    intro b hb hne
    have hb2 : b = rDom ∨ b = rPeer := by simpa using hb
    rcases hb2 with rfl | rfl
    · exact absurd rfl hne
    · refine ⟨by norm_num [rDom, rPeer], by norm_num [rDom, rPeer], ?_⟩
      intro da db hda hdb
      simp [rDom] at hda
      simp [rPeer] at hdb
      omega

end Madlan
